import Mathlib

/-!
Verification of the FIFA futsal world-cup dashboard (`fifa_futsal_wc`).

This file gives a shallow embedding of the parts of the repository that the
checked claims are about:

  * `common/colors.py`  — hex parsing/formatting, the colorsys HSV→RGB
    conversion, sRGB→Lab conversion, the CIE76 distance, the similarity
    test and `pick_match_colors`;
  * `common/metrics.py` — `parse_time_to_seconds`, `ewma`,
    `build_attack_df`, `build_minute_matrix`;
  * `common/plots.py`   — the ranking aggregation inside `plot_top_players`;
  * `controllers/stats_controller.py` — `compute_event_stats`.

Modelling conventions.  Python `float` arithmetic is idealised as exact
arithmetic: `ℚ` where the computation stays rational (integer truncation,
weights, sums) and `ℝ` at the two fractional powers of the Lab conversion
and the exponential of the EWMA.  All decision points exercised by the
claims are far from float rounding boundaries (this was checked against
IEEE double evaluation, including the truncation `int(84/255*0.75*255) = 63`).
`None`/`NaN` cells are modelled as `Option.none`.  A raised-and-not-caught
Python exception is modelled with an `Option` result.  Python's per-process
salted string hash is modelled as an explicit function parameter
`strHash : String → ℤ`; a SQLite colors database (an asset, not code) is a
`List DbRow` parameter, and the FIFA-abbreviation lookup (a cached network
call) is an `Option String` parameter.  Python's ASCII `str.upper`,
`str.lower` and `str.strip` are implemented character-wise.
-/

namespace FutsalWC

/-! ### Character and string helpers (ASCII fragments of Python str methods) -/

/-- Apostrophe character (codepoint 39). -/
def apos : Char := Char.ofNat 39

/-- Double-quote character (codepoint 34). -/
def quot : Char := Char.ofNat 34

/-- ASCII lower-casing of one character, as Python `str.lower` acts on ASCII. -/
def asciiLower (c : Char) : Char :=
  if 65 ≤ c.toNat ∧ c.toNat ≤ 90 then Char.ofNat (c.toNat + 32) else c

/-- ASCII upper-casing of one character, as Python `str.upper` acts on ASCII. -/
def asciiUpper (c : Char) : Char :=
  if 97 ≤ c.toNat ∧ c.toNat ≤ 122 then Char.ofNat (c.toNat - 32) else c

/-- Whitespace test used by Python `str.strip`. -/
def isSpaceChar (c : Char) : Bool :=
  c = ' ' ∨ c = '\t' ∨ c = '\n' ∨ c = '\r'

/-- Python `str.strip`: drop whitespace from both ends. -/
def stripChars (cs : List Char) : List Char :=
  ((cs.dropWhile isSpaceChar).reverse.dropWhile isSpaceChar).reverse

/-- Python `str.upper` on a string, ASCII fragment. -/
def upperStr (s : String) : String := ⟨s.toList.map asciiUpper⟩

/-- Python `str.lower` on a string, ASCII fragment. -/
def lowerStr (s : String) : String := ⟨s.toList.map asciiLower⟩

/-- Python `str.strip` on a string. -/
def stripStr (s : String) : String := ⟨stripChars s.toList⟩

/-- Python `int(x)` for a rational: truncation toward zero. -/
def pyInt (x : ℚ) : ℤ := if 0 ≤ x then ⌊x⌋ else -⌊-x⌋

/-! ### common/colors.py — hex parsing and formatting -/

/-- Value of one hexadecimal digit, as accepted by Python `int(_, 16)`. -/
def hexDigitVal? (c : Char) : Option ℕ :=
  if 48 ≤ c.toNat ∧ c.toNat ≤ 57 then some (c.toNat - 48)
  else if 97 ≤ c.toNat ∧ c.toNat ≤ 102 then some (c.toNat - 87)
  else if 65 ≤ c.toNat ∧ c.toNat ≤ 70 then some (c.toNat - 55)
  else none

/-- Python `int(s, 16)`: `none` models the `ValueError` raised on an empty
or non-hexadecimal string. -/
def hexNum? (cs : List Char) : Option ℕ :=
  match cs with
  | [] => none
  | _ => cs.foldlM (fun acc c => (hexDigitVal? c).map (fun d => 16 * acc + d)) 0

/-- Python slice `l[a:b]` on a character list. -/
def slice (cs : List Char) (a b : ℕ) : List Char := (cs.drop a).take (b - a)

/-- Embeds `_hex_to_rgb` up to the division by 255 (kept as the raw 0..255
integers; the `/255` happens in `linC` below).  Faithful to
`h = hexs.strip().lstrip("#")` then `int(h[0:2],16), int(h[2:4],16), int(h[4:6],16)`;
`none` models the uncaught `ValueError` on malformed input. -/
def hex_to_rgb? (s : String) : Option (ℕ × ℕ × ℕ) :=
  let h := (stripChars s.toList).dropWhile (fun c => c = '#')
  match hexNum? (slice h 0 2), hexNum? (slice h 2 4), hexNum? (slice h 4 6) with
  | some r, some g, some b => some (r, g, b)
  | _, _, _ => none

/-- Upper-case hexadecimal digit character for `0 ≤ n < 16`. -/
def hexDigitChar (n : ℕ) : Char :=
  if n < 10 then Char.ofNat (48 + n) else Char.ofNat (55 + n)

/-- Python `"{:02X}".format n` for the byte values `0 ≤ n < 256` produced by
the color code. -/
def toHex2 (n : ℕ) : String := ⟨[hexDigitChar (n / 16 % 16), hexDigitChar (n % 16)]⟩

/-- The `"#{:02X}{:02X}{:02X}".format(...)` pattern of `colors.py`. -/
def fmtHex (r g b : ℕ) : String := "#" ++ toHex2 r ++ toHex2 g ++ toHex2 b

/-- Python `int(x * 255)` on a channel value. -/
def chan255 (x : ℚ) : ℕ := (pyInt (x * 255)).toNat

/-! ### colorsys.hsv_to_rgb (Python standard library), exact arithmetic -/

/-- Embeds CPython `colorsys.hsv_to_rgb`.  `int(h*6.0)` is truncation toward
zero; all uses in this code have `h ∈ [0,1)` so it is the floor. -/
def hsv_to_rgb (h s v : ℚ) : ℚ × ℚ × ℚ :=
  if s = 0 then (v, v, v) else
  let i0 : ℤ := pyInt (h * 6)
  let f : ℚ := h * 6 - (i0 : ℚ)
  let p : ℚ := v * (1 - s)
  let q : ℚ := v * (1 - s * f)
  let t : ℚ := v * (1 - s * (1 - f))
  let i : ℤ := i0.emod 6
  if i = 0 then (v, t, p)
  else if i = 1 then (q, v, p)
  else if i = 2 then (p, v, t)
  else if i = 3 then (p, q, v)
  else if i = 4 then (t, p, v)
  else (v, p, q)

/-- The deterministic fallback base color of `pick_match_colors`:
`h = (hash(name) % 360)/360`, `colorsys.hsv_to_rgb(h, 0.65, 0.95)`,
then `"#{:02X}{:02X}{:02X}"` of the truncated channels.  Python `%` on a
possibly negative hash agrees with `Int.emod` for a positive modulus. -/
def hue_base_hex (hashVal : ℤ) : String :=
  let h : ℚ := ((hashVal.emod 360 : ℤ) : ℚ) / 360
  let c := hsv_to_rgb h (65/100) (95/100)
  fmtHex (chan255 c.1) (chan255 c.2.1) (chan255 c.2.2)

/-- Embeds `_lighten_or_darken`; `none` models the uncaught exception on a
hex string `_hex_to_rgb` cannot parse. -/
def lighten_or_darken? (s : String) (factor : ℚ) : Option String :=
  match hex_to_rgb? s with
  | none => none
  | some (r0, g0, b0) =>
    let r : ℚ := (r0 : ℚ) / 255
    let g : ℚ := (g0 : ℚ) / 255
    let b : ℚ := (b0 : ℚ) / 255
    let rgb : ℚ × ℚ × ℚ :=
      if 0 ≤ factor then
        (r + (1 - r) * factor, g + (1 - g) * factor, b + (1 - b) * factor)
      else
        (r * (1 + factor), g * (1 + factor), b * (1 + factor))
    some (fmtHex (chan255 rgb.1) (chan255 rgb.2.1) (chan255 rgb.2.2))

/-! ### colors.py — sRGB → Lab and the CIE76 distance, over ℝ -/

open Classical in
/-- The sRGB linearisation `f` inside `_rgb_to_lab`. -/
noncomputable def srgb_lin (u : ℝ) : ℝ :=
  if u ≤ 0.04045 then u / 12.92 else ((u + 0.055) / 1.055) ^ (2.4 : ℝ)

open Classical in
/-- The `gfun` helper inside `_rgb_to_lab`. -/
noncomputable def lab_g (t : ℝ) : ℝ :=
  if t > 0.008856 then t ^ ((1 : ℝ)/3) else 7.787 * t + 16 / 116

/-- Linearised channel of a raw byte value (`_hex_to_rgb` divides by 255,
`_rgb_to_lab` then applies `f`). -/
noncomputable def linC (k : ℕ) : ℝ := srgb_lin ((k : ℝ) / 255)

/-- `X` of `_rgb_to_lab`. -/
noncomputable def labX (c : ℕ × ℕ × ℕ) : ℝ :=
  linC c.1 * 0.4124 + linC c.2.1 * 0.3576 + linC c.2.2 * 0.1805

/-- `Y` of `_rgb_to_lab`. -/
noncomputable def labY (c : ℕ × ℕ × ℕ) : ℝ :=
  linC c.1 * 0.2126 + linC c.2.1 * 0.7152 + linC c.2.2 * 0.0722

/-- `Z` of `_rgb_to_lab`. -/
noncomputable def labZ (c : ℕ × ℕ × ℕ) : ℝ :=
  linC c.1 * 0.0193 + linC c.2.1 * 0.1192 + linC c.2.2 * 0.9505

/-- `fx = gfun(X / Xn)` with `Xn = 0.95047`. -/
noncomputable def fxC (c : ℕ × ℕ × ℕ) : ℝ := lab_g (labX c / 0.95047)

/-- `fy = gfun(Y / Yn)` with `Yn = 1.00000`. -/
noncomputable def fyC (c : ℕ × ℕ × ℕ) : ℝ := lab_g (labY c / 1.00000)

/-- `fz = gfun(Z / Zn)` with `Zn = 1.08883`. -/
noncomputable def fzC (c : ℕ × ℕ × ℕ) : ℝ := lab_g (labZ c / 1.08883)

/-- `L = 116*fy - 16`. -/
noncomputable def labL (c : ℕ × ℕ × ℕ) : ℝ := 116 * fyC c - 16

/-- `a = 500*(fx - fy)`. -/
noncomputable def labA (c : ℕ × ℕ × ℕ) : ℝ := 500 * (fxC c - fyC c)

/-- `b = 200*(fy - fz)`. -/
noncomputable def labB (c : ℕ × ℕ × ℕ) : ℝ := 200 * (fyC c - fzC c)

/-- The sum of squared Lab differences inside `_delta_e76`. -/
noncomputable def sumSq (c1 c2 : ℕ × ℕ × ℕ) : ℝ :=
  (labL c1 - labL c2) ^ 2 + (labA c1 - labA c2) ^ 2 + (labB c1 - labB c2) ^ 2

/-- `_delta_e76` on parsed colors: `(...) ** 0.5`. -/
noncomputable def delta_e76R (c1 c2 : ℕ × ℕ × ℕ) : ℝ := sumSq c1 c2 ^ ((1 : ℝ)/2)

/-- `_delta_e76` on hex strings; `none` models the exception on a parse
failure (caught by `_similar`). -/
noncomputable def delta_e76? (c1 c2 : String) : Option ℝ :=
  match hex_to_rgb? c1, hex_to_rgb? c2 with
  | some a, some b => some (delta_e76R a b)
  | _, _ => none

/-- Embeds `_similar` with its default `delta = 20.0`: `ΔE76 < 20`, falling
back to case-insensitive string equality when `_delta_e76` raises. -/
def similar (c1 c2 : String) : Prop :=
  match delta_e76? c1 c2 with
  | some d => d < 20
  | none => lowerStr c1 = lowerStr c2

/-! ### colors.py — database lookup and pick_match_colors -/

/-- One row of the `team_colors` SQLite table. -/
structure DbRow where
  name : String
  abbr : String
  home_color : String
  away_color : String

/-- Embeds `db_lookup_palette`: abbreviation key first, then full name, both
upper-cased and stripped as `load_colors_db` builds `key_abbr`/`key_name`.
Returns `(home, away)` hex strings of the first matching row. -/
def db_lookup_palette (db : List DbRow) (name abbr : Option String) : Option (String × String) :=
  let byAbbr :=
    match abbr with
    | some a =>
      if a ≠ "" then
        (db.find? (fun (row : DbRow) => stripStr (upperStr row.abbr) = stripStr (upperStr a))).map
          (fun (row : DbRow) => (row.home_color, row.away_color))
      else none
    | none => none
  match byAbbr with
  | some p => some p
  | none =>
    match name with
    | some n =>
      if n ≠ "" then
        (db.find? (fun (row : DbRow) => stripStr (upperStr row.name) = stripStr (upperStr n))).map
          (fun (row : DbRow) => (row.home_color, row.away_color))
      else none
    | none => none

/-- Result type of `pick_match_colors` (the `MatchPalette` dataclass). -/
structure MatchPalette where
  home_color : String
  away_color : String
deriving DecidableEq

/-- The fallback palette `{"home": base, "away": _lighten_or_darken(base, -0.25)}`
built when a team is not in the database. -/
def fallback_palette? (strHash : String → ℤ) (name : String) : Option (String × String) :=
  let base := hue_base_hex (strHash name)
  (lighten_or_darken? base (-1/4)).map (fun d => (base, d))

open Classical in
/-- Embeds `pick_match_colors`.  The colors database, the per-process string
hash, and the two FIFA-abbreviation lookups (a cached network call in the
source) are explicit parameters; `none` models an uncaught exception. -/
noncomputable def pick_match_colors (db : List DbRow) (strHash : String → ℤ)
    (abbr_home abbr_away : Option String) (home_name away_name : String) :
    Option MatchPalette :=
  let palH? :=
    match db_lookup_palette db (some home_name) abbr_home with
    | some p => some p
    | none => fallback_palette? strHash home_name
  let palA? :=
    match db_lookup_palette db (some away_name) abbr_away with
    | some p => some p
    | none => fallback_palette? strHash away_name
  match palH?, palA? with
  | some palH, some palA =>
    let c_home := palH.1
    let c_away0 := palA.2
    let c_away1 := if similar c_home c_away0 then palA.1 else c_away0
    if similar c_home c_away1 then
      (lighten_or_darken? c_away1 (-1/4)).map (fun c => ⟨c_home, c⟩)
    else
      some ⟨c_home, c_away1⟩
  | _, _ => none

/-! ### common/metrics.py — parse_time_to_seconds -/

/-- ASCII digit test (the `\d` class on the data seen here). -/
def isDigitCh (c : Char) : Bool := 48 ≤ c.toNat ∧ c.toNat ≤ 57

/-- Python `int` on a nonempty ASCII digit string. -/
def natOfDigits (ds : List Char) : ℕ :=
  ds.foldl (fun acc c => 10 * acc + (c.toNat - 48)) 0

/-- The curly-quote normalisation at the top of `parse_time_to_seconds`
(each pattern is a single character, so `str.replace` is a character map). -/
def replaceQuotes (cs : List Char) : List Char :=
  cs.map (fun c =>
    if c = '’' ∨ c = '′' then apos
    else if c = '“' ∨ c = '”' then quot
    else c)

/-- Does `cs` start with `pat`? -/
def leadsWith : List Char → List Char → Bool
  | [], _ => true
  | _ :: _, [] => false
  | p :: ps, c :: cs => p = c ∧ leadsWith ps cs

/-- Match the regex `<pre>(\d+)<post>` at the head of `cs`.  Maximal munch is
exact here because a shorter digit run is followed by a digit, which never
equals the (non-digit) `post` character. -/
def matchNumBetween (pre : List Char) (post : Char) (cs : List Char) : Option ℕ :=
  if leadsWith pre cs then
    let rest := cs.drop pre.length
    let ds := rest.takeWhile isDigitCh
    match ds with
    | [] => none
    | _ =>
      match rest.dropWhile isDigitCh with
      | m :: _ => if m = post then some (natOfDigits ds) else none
      | [] => none
  else none

/-- `re.search` for `<pre>(\d+)<post>`: first matching position wins. -/
def searchNumBetween (pre : List Char) (post : Char) : List Char → Option ℕ
  | [] => none
  | c :: cs =>
    match matchNumBetween pre post (c :: cs) with
    | some n => some n
    | none => searchNumBetween pre post cs

/-- Substring test (`x in s` for Python strings). -/
def containsSeq (pat : List Char) : List Char → Bool
  | [] => pat.isEmpty
  | c :: cs => leadsWith pat (c :: cs) ∨ containsSeq pat cs

/-- The `re.split(r"[:']", s, maxsplit=1)` step: text before the first
colon-or-apostrophe, and (when a separator exists) the text after it. -/
def splitFirstSep : List Char → List Char × Option (List Char)
  | [] => ([], none)
  | c :: cs =>
    if c = ':' ∨ c = apos then ([], some cs)
    else
      let r := splitFirstSep cs
      (c :: r.1, r.2)

/-- The maximal digit runs of `cs`, in order (`re.findall(r"\d+", s)`).
A digit is merged into the following run exactly when the next character is
also a digit. -/
def digitRuns : List Char → List (List Char)
  | [] => []
  | c :: cs =>
    let r := digitRuns cs
    if isDigitCh c then
      match cs with
      | d :: _ => if isDigitCh d then (c :: r.headD []) :: r.tail else [c] :: r
      | [] => [[c]]
    else r

/-- Embeds `parse_time_to_seconds`.  The argument is `none` for a missing
value (`pd.isna`), otherwise the raw string. -/
def parse_time_to_seconds (val : Option String) : ℚ :=
  match val with
  | none => 0
  | some v =>
    let s := replaceQuotes (stripChars v.toList)
    if leadsWith ['P', 'T'] s ∧ s.getLast? = some 'S' then
      match searchNumBetween ['P', 'T'] 'M' s with
      | none =>
        match searchNumBetween ['P', 'T'] 'S' s with
        | some n => (n : ℚ)
        | none => 0
      | some m =>
        let sec := (searchNumBetween ['M'] 'S' s).getD 0
        ((m * 60 + sec : ℕ) : ℚ)
    else if s.contains ':' ∨ s.contains apos then
      let parts := splitFirstSep s
      let minutes := natOfDigits (parts.1.filter isDigitCh)
      let seconds := natOfDigits ((parts.2.getD []).filter isDigitCh)
      ((minutes * 60 + seconds : ℕ) : ℚ)
    else if s.contains quot ∨ containsSeq ['s', 'e', 'c'] (s.map asciiLower) then
      match s.filter isDigitCh with
      | [] => 0
      | ds => (natOfDigits ds : ℚ)
    else if s ≠ [] ∧ s.all isDigitCh then
      ((natOfDigits s * 60 : ℕ) : ℚ)
    else
      match digitRuns s with
      | a :: b :: _ => ((natOfDigits a * 60 + natOfDigits b : ℕ) : ℚ)
      | [a] => ((natOfDigits a * 60 : ℕ) : ℚ)
      | [] => 0

/-! ### common/metrics.py — ewma -/

/-- The smoothing factor `alpha = 1 - exp(-dt / max(tau, 1e-9))`. -/
noncomputable def ewmaAlpha (dt tau : ℝ) : ℝ :=
  1 - Real.exp (-(dt / max tau (1/1000000000)))

/-- The recursive update `y[i] = alpha*x[i] + (1-alpha)*y[i-1]`. -/
noncomputable def ewmaGo (alpha : ℝ) : ℝ → List ℝ → List ℝ
  | _, [] => []
  | prev, z :: zs =>
    (alpha * z + (1 - alpha) * prev) :: ewmaGo alpha (alpha * z + (1 - alpha) * prev) zs

/-- Embeds `ewma(x, dt_minutes, tau_minutes)`: empty input is returned as
is, otherwise `y[0] = x[0]` and the causal recursion follows. -/
noncomputable def ewma (x : List ℝ) (dt_minutes tau_minutes : ℝ) : List ℝ :=
  match x with
  | [] => x
  | x0 :: xs => x0 :: ewmaGo (ewmaAlpha dt_minutes tau_minutes) x0 xs

/-! ### common/metrics.py — build_attack_df -/

/-- The columns of the selected match row used by these functions. -/
structure MatchRow where
  HomeId : String
  HomeName : String
  AwayId : String
  AwayName : String
deriving DecidableEq

/-- The event columns consumed by `build_attack_df` and
`compute_event_stats`. -/
structure EventRow where
  TeamId : String
  Description : String
  PlayerId : String
  MatchMinute : Option String
deriving DecidableEq

/-- One row of the squad lookup (`PlayerId`, `PlayerName`). -/
structure SquadRow where
  PlayerId : String
  PlayerName : String
deriving DecidableEq

/-- An output row of `build_attack_df` (the derived columns it appends).
`TeamName`/`PlayerName` are `none` where pandas would put `NaN`. -/
structure AttackRow where
  TeamId : String
  Description : String
  PlayerId : String
  MatchMinute : Option String
  TeamName : Option String
  PlayerName : Option String
  sec : ℚ
  minute : ℤ
  label : String
  w : ℚ
deriving DecidableEq

/-- `WHITELIST_ATTACK = {"Attempt at Goal", "Goal!"}`. -/
def WHITELIST_ATTACK : List String := ["Attempt at Goal", "Goal!"]

/-- `GOAL_WEIGHT = 2.0`. -/
def GOAL_WEIGHT : ℚ := 2

/-- `ATTEMPT_WEIGHT = 1.0`. -/
def ATTEMPT_WEIGHT : ℚ := 1

/-- The dict `{str(HomeId): HomeName, str(AwayId): AwayName}` used with
`.map`: the away entry overwrites the home entry when the ids coincide,
and an unknown id maps to `NaN` (`none`). -/
def teamNameOf (mr : MatchRow) (tid : String) : Option String :=
  if tid = mr.AwayId then some mr.AwayName
  else if tid = mr.HomeId then some mr.HomeName
  else none

/-- NumPy rounding (round half to even), used by `Series.round`. -/
def npRound (x : ℚ) : ℤ :=
  if Int.fract x = 1/2 then (if Even ⌊x⌋ then ⌊x⌋ else ⌊x⌋ + 1) else round x

/-- Python `f"{int(m):02d}"` for the nonnegative minutes produced here. -/
def pad2 (m : ℤ) : String :=
  let n := m.toNat
  if n < 10 then "0" ++ toString n else toString n

/-- The label `f"{int(m):02d}'"` built from the floored minute. -/
def mkLabel (m : ℤ) : String := pad2 m ++ ⟨[apos]⟩

/-- The weight rule of `build_attack_df` (and the identical score rule of
`plot_top_players`): lower-cased stripped description in `{"goal","goal!"}`
gets `GOAL_WEIGHT`, anything else `ATTEMPT_WEIGHT`. -/
def weightOf (desc : String) : ℚ :=
  if lowerStr (stripStr desc) = "goal" ∨ lowerStr (stripStr desc) = "goal!" then
    GOAL_WEIGHT
  else ATTEMPT_WEIGHT

/-- Embeds `build_attack_df`: whitelist filter, team-name mapping, the
optional left merge of `PlayerName` (a left merge keeps every left row,
duplicates it per matching squad row, and leaves `NaN` when there is no
match), then the derived `sec`, `minute`, `label` and `w` columns. -/
def build_attack_df (events : List EventRow) (mr : MatchRow)
    (squads : Option (List SquadRow)) : List AttackRow :=
  let df1 := events.filter (fun e => e.Description ∈ WHITELIST_ATTACK)
  let merged : List (EventRow × Option String) :=
    match squads with
    | some sq =>
      if sq = [] then df1.map (fun e => (e, some "")) else
        df1.flatMap (fun e =>
          match sq.filter (fun m => m.PlayerId = e.PlayerId) with
          | [] => [(e, none)]
          | ms => ms.map (fun m => (e, some m.PlayerName)))
    | none => df1.map (fun e => (e, some ""))
  merged.map (fun ep =>
    let s := parse_time_to_seconds ep.1.MatchMinute
    { TeamId := ep.1.TeamId
      Description := ep.1.Description
      PlayerId := ep.1.PlayerId
      MatchMinute := ep.1.MatchMinute
      TeamName := teamNameOf mr ep.1.TeamId
      PlayerName := ep.2
      sec := s
      minute := npRound (s / 60)
      label := mkLabel ⌊s / 60⌋
      w := weightOf ep.1.Description })

/-! ### common/metrics.py — build_minute_matrix -/

/-- The columns of a per-minute attack table that `build_minute_matrix`
reads (`minute`, `TeamName`, `w`). -/
structure MinuteRow where
  minute : ℤ
  TeamName : Option String
  w : ℚ
deriving DecidableEq

/-- Distinct elements of a list (pandas group keys).  The order in which a
key comes out is immaterial here: every later use is a keyed lookup. -/
def uniqKeys {α : Type} [DecidableEq α] : List α → List α
  | [] => []
  | k :: ks => if k ∈ ks then uniqKeys ks else k :: uniqKeys ks

/-- The grouped weight sum of `df_attack.groupby(["minute","TeamName"])["w"].sum()`
for one key (groupby drops rows whose `TeamName` is `NaN`). -/
def groupWSum (rows : List MinuteRow) (k : ℤ × String) : ℚ :=
  ((rows.filter (fun r => r.minute = k.1 ∧ r.TeamName = some k.2)).map
    (fun r => r.w)).sum

/-- The aggregated `(minute, TeamName) ↦ summed w` table `tmp`. -/
def tmpAgg (rows : List MinuteRow) : List ((ℤ × String) × ℚ) :=
  (uniqKeys (rows.filterMap (fun r => r.TeamName.map (fun t => (r.minute, t))))).map
    (fun k => (k, groupWSum rows k))

/-- A keyed left merge against the aggregated table (its keys are unique). -/
def lookupW (tmp : List ((ℤ × String) × ℚ)) (k : ℤ × String) : Option ℚ :=
  (tmp.find? (fun e => e.1 = k)).map (fun e => e.2)

/-- Embeds `build_minute_matrix`: the `np.arange(0, 41)` minute baseline,
two keyed left merges of the per-team weight sums, and `fillna(0.0)`.
Each output row is `(minute, team_a, team_b)`. -/
def build_minute_matrix (rows : List MinuteRow) (mr : MatchRow) : List (ℤ × ℚ × ℚ) :=
  let teams := (mr.HomeName, mr.AwayName)
  let tmp := tmpAgg rows
  (List.range 41).map (fun (m : ℕ) =>
    ((m : ℤ), (lookupW tmp ((m : ℤ), teams.1)).getD 0,
      (lookupW tmp ((m : ℤ), teams.2)).getD 0))

/-! ### common/plots.py — the ranking aggregation of plot_top_players -/

/-- The columns of `df_goles` read by `plot_top_players`. -/
structure GoalRow where
  PlayerName : String
  TeamName : String
  Description : String
deriving DecidableEq

/-- Codepoint-lexicographic comparison of character lists (Python string
`<`). -/
def lexLt : List Char → List Char → Bool
  | [], [] => false
  | [], _ :: _ => true
  | _ :: _, [] => false
  | a :: as, b :: bs =>
    if a.toNat < b.toNat then true
    else if b.toNat < a.toNat then false
    else lexLt as bs

/-- Python string `<`. -/
def strLtB (a b : String) : Bool := lexLt a.toList b.toList

/-- Lexicographic order on the `(PlayerName, TeamName)` group key, as the
sorted pandas groupby emits its groups. -/
def keyLtB (a b : String × String) : Bool :=
  strLtB a.1 b.1 ∨ (a.1 = b.1 ∧ strLtB a.2 b.2)

/-- Insertion into an ascending key-sorted list. -/
def insertKeyAsc (x : String × String) :
    List (String × String) → List (String × String)
  | [] => [x]
  | y :: ys => if keyLtB x y then x :: y :: ys else y :: insertKeyAsc x ys

/-- Ascending sort of the distinct group keys (the keys are distinct, so
stability is irrelevant here). -/
def sortKeysAsc (l : List (String × String)) : List (String × String) :=
  l.foldr insertKeyAsc []

/-- The grouped score sum for one `(PlayerName, TeamName)` key. -/
def groupScoreSum (rows : List GoalRow) (k : String × String) : ℚ :=
  ((rows.filter (fun r => r.PlayerName = k.1 ∧ r.TeamName = k.2)).map
    (fun r => weightOf r.Description)).sum

/-- `df.groupby(["PlayerName","TeamName"], as_index=False)["score"].sum()`:
pandas groups with `sort=True`, so the keys come out in lexicographic
order. -/
def groupbyPlayerTeam (rows : List GoalRow) : List ((String × String) × ℚ) :=
  (sortKeysAsc (uniqKeys (rows.map (fun r => (r.PlayerName, r.TeamName))))).map
    (fun k => (k, groupScoreSum rows k))

/-- Stable descending insertion: the new element goes after every earlier
element whose score is `≥` its own. -/
def insertScoreDesc (x : (String × String) × ℚ) :
    List ((String × String) × ℚ) → List ((String × String) × ℚ)
  | [] => [x]
  | y :: ys => if y.2 < x.2 then x :: y :: ys else y :: insertScoreDesc x ys

/-- `sort_values("score", ascending=False)`: pandas argsorts the reversed
array and reverses the result, which on the insertion-sort regime of small
arrays is exactly a stable descending sort of its input. -/
def sortScoreDesc (l : List ((String × String) × ℚ)) :
    List ((String × String) × ℚ) :=
  l.foldl (fun acc x => insertScoreDesc x acc) []

/-- The ranking data behind `plot_top_players`: grouped score sums, sorted
by score descending, truncated with `head(top_n)`. -/
def top_players_agg (rows : List GoalRow) (top_n : ℕ) :
    List ((String × String) × ℚ) :=
  (sortScoreDesc (groupbyPlayerTeam rows)).take top_n

/-! ### controllers/stats_controller.py — compute_event_stats -/

/-- `WHITELIST_EVENTS` of `common/constants.py`. -/
def WHITELIST_EVENTS : List String :=
  ["Attempt at Goal", "Foul", "Goal!", "Assist", "Corner"]

/-- The per-`TeamName` group sizes over all events
(`groupby("TeamName", dropna=False).size()`; `none` is the `NaN` group). -/
def counts0Of (events : List EventRow) (mr : MatchRow) : List (Option String × ℕ) :=
  (uniqKeys (events.map (fun e => teamNameOf mr e.TeamId))).map
    (fun k => (k, (events.filter (fun e => teamNameOf mr e.TeamId = k)).length))

/-- `reindex([HomeName, AwayName], fill_value=0)` on the counts: a keyed
lookup with default 0.  The intermediate `sort_values` is absorbed by the
keyed reindex. -/
def reidxCountOf (events : List EventRow) (mr : MatchRow) (t : String) : ℕ :=
  (((counts0Of events mr).find? (fun e => e.1 = some t)).map (fun e => e.2)).getD 0

/-- The whitelisted rows feeding the distribution pivot. -/
def distRowsOf (events : List EventRow) : List EventRow :=
  events.filter (fun e => e.Description ∈ WHITELIST_EVENTS)

/-- The all-zero distribution row used by the empty special case and the
reindex fill. -/
def zeroRowStats : List (String × ℕ) :=
  WHITELIST_EVENTS.map (fun evt => (evt, 0))

/-- One pivot row: the count of whitelisted events per description for one
team (`pivot_table(index="TeamName", columns="Description", aggfunc="count",
fill_value=0).reindex(columns=WHITELIST_EVENTS, fill_value=0)`). -/
def pivotRowOf (events : List EventRow) (mr : MatchRow) (t : String) : List (String × ℕ) :=
  WHITELIST_EVENTS.map (fun evt =>
    (evt, ((distRowsOf events).filter
      (fun e => teamNameOf mr e.TeamId = some t ∧ e.Description = evt)).length))

/-- `reindex([HomeName, AwayName], fill_value=0)` on the pivot: teams with a
pivot row (the `NaN` team key is dropped by `pivot_table`) keep it, others
are filled with zeros. -/
def reidxDistOf (events : List EventRow) (mr : MatchRow) (t : String) : List (String × ℕ) :=
  if t ∈ uniqKeys ((distRowsOf events).filterMap (fun e => teamNameOf mr e.TeamId)) then
    pivotRowOf events mr t
  else zeroRowStats

/-- Embeds `compute_event_stats` (the `TeamName`/count columns; the flag
column, a pure display lookup, is not modelled): the all-events counts and
the whitelisted distribution — with its explicit two-row zero table when no
whitelisted event exists — both reindexed to `[HomeName, AwayName]`. -/
def compute_event_stats (events : List EventRow) (mr : MatchRow) :
    List (String × ℕ) × List (String × List (String × ℕ)) :=
  ([(mr.HomeName, reidxCountOf events mr mr.HomeName),
    (mr.AwayName, reidxCountOf events mr mr.AwayName)],
   if distRowsOf events = [] then
     [(mr.HomeName, zeroRowStats), (mr.AwayName, zeroRowStats)]
   else
     [(mr.HomeName, reidxDistOf events mr mr.HomeName),
      (mr.AwayName, reidxDistOf events mr mr.AwayName)])

/-- Direct per-team event count (used to state what `counts` contains). -/
def countTeam (events : List EventRow) (mr : MatchRow) (t : String) : ℕ :=
  (events.filter (fun e => teamNameOf mr e.TeamId = some t)).length

/-- Direct per-team, per-description whitelisted count (used to state what
`dist` contains). -/
def countTeamEvt (events : List EventRow) (mr : MatchRow) (t evt : String) : ℕ :=
  (events.filter (fun e =>
    e.Description ∈ WHITELIST_EVENTS ∧ teamNameOf mr e.TeamId = some t ∧
      e.Description = evt)).length

/-- Direct weight sum of one team in one minute (used to state what
`build_minute_matrix` contains). -/
def wsumAt (rows : List MinuteRow) (m : ℤ) (t : String) : ℚ :=
  ((rows.filter (fun r => r.minute = m ∧ r.TeamName = some t)).map
    (fun r => r.w)).sum

/-! ### Concrete instances used by the claims -/

/-- A process whose string hash lands every name on hue 210. -/
def hash210 : String → ℤ := fun _ => 210

/-- A process whose string hash lands every name on hue 0. -/
def hash0 : String → ℤ := fun _ => 0

/-- A process hashing the home name to hue 0 and the away name to hue 120. -/
def hashRG : String → ℤ := fun s => if s = "Red" then 0 else 120

/-- A match row with distinct ids and names. -/
def mrEx : MatchRow := ⟨"1", "Home", "2", "Away"⟩

/-- Three players with summed weights 3, 3, 1 whose original order is
Zed (rows 0–1), Ann (rows 2–3), Bob (row 4). -/
def goalRowsEx : List GoalRow :=
  [⟨"Zed", "T", "Goal!"⟩, ⟨"Zed", "T", "Attempt at Goal"⟩,
   ⟨"Ann", "T", "Goal!"⟩, ⟨"Ann", "T", "Attempt at Goal"⟩,
   ⟨"Bob", "T", "Attempt at Goal"⟩]

/-- One goal at 1 minute 30 seconds. -/
def evC4 : List EventRow := [⟨"1", "Goal!", "p1", some "01:30"⟩]

/-- The attack row `build_attack_df` makes of `evC4` (no squads). -/
def rowC4 : AttackRow :=
  ⟨"1", "Goal!", "p1", some "01:30", some "Home", some "", 90, 2, mkLabel 1, 2⟩

/-- One goal by a player who is missing from the squad lookup. -/
def evC5 : List EventRow := [⟨"1", "Goal!", "p2", some "00:10"⟩]

/-- A nonempty squad lookup that does not contain player `p2`. -/
def squadsEx : List SquadRow := [⟨"p1", "Alice"⟩]

/-- The attack row `build_attack_df` makes of `evC5` with `squadsEx`. -/
def rowC5 : AttackRow :=
  ⟨"1", "Goal!", "p2", some "00:10", some "Home", none, 10, 0, mkLabel 0, 2⟩

/-- A single attack event whose derived minute 45 lies outside 0..40. -/
def minuteRowsEx : List MinuteRow := [⟨45, some "Home", 2⟩]

/-! ## Theorems

First, rational certificates for the two fractional powers: `x ^ 2.4` is
bracketed through fifth powers (`2.4 = 12/5`) and `x ^ (1/3)` through
cubes, so every numeric bound below reduces to an exact rational
inequality. -/

theorem rat_rpow24_le {v q : ℚ} (hv : 0 ≤ v) (hq : 0 ≤ q) (h : q ^ 5 ≤ v ^ 12) :
    (q : ℝ) ≤ (v : ℝ) ^ (2.4 : ℝ) := by
  have hv' : (0 : ℝ) ≤ (v : ℝ) := by exact_mod_cast hv
  have hq' : (0 : ℝ) ≤ (q : ℝ) := by exact_mod_cast hq
  have h' : ((q : ℝ)) ^ (5 : ℕ) ≤ ((v : ℝ)) ^ (12 : ℕ) := by exact_mod_cast h
  calc (q : ℝ) = (((q : ℝ) ^ (5 : ℕ))) ^ ((1 : ℝ)/5) := by
        rw [← Real.rpow_natCast (q : ℝ) 5, ← Real.rpow_mul hq']
        norm_num
    _ ≤ (((v : ℝ) ^ (12 : ℕ))) ^ ((1 : ℝ)/5) :=
        Real.rpow_le_rpow (by positivity) h' (by norm_num)
    _ = (v : ℝ) ^ (2.4 : ℝ) := by
        rw [← Real.rpow_natCast (v : ℝ) 12, ← Real.rpow_mul hv']
        norm_num

theorem rat_rpow24_ge {v q : ℚ} (hv : 0 ≤ v) (hq : 0 ≤ q) (h : v ^ 12 ≤ q ^ 5) :
    (v : ℝ) ^ (2.4 : ℝ) ≤ (q : ℝ) := by
  have hv' : (0 : ℝ) ≤ (v : ℝ) := by exact_mod_cast hv
  have hq' : (0 : ℝ) ≤ (q : ℝ) := by exact_mod_cast hq
  have h' : ((v : ℝ)) ^ (12 : ℕ) ≤ ((q : ℝ)) ^ (5 : ℕ) := by exact_mod_cast h
  calc (v : ℝ) ^ (2.4 : ℝ) = (((v : ℝ) ^ (12 : ℕ))) ^ ((1 : ℝ)/5) := by
        rw [← Real.rpow_natCast (v : ℝ) 12, ← Real.rpow_mul hv']
        norm_num
    _ ≤ (((q : ℝ) ^ (5 : ℕ))) ^ ((1 : ℝ)/5) :=
        Real.rpow_le_rpow (by positivity) h' (by norm_num)
    _ = (q : ℝ) := by
        rw [← Real.rpow_natCast (q : ℝ) 5, ← Real.rpow_mul hq']
        norm_num

theorem rpow13_ge {x : ℝ} {q : ℚ} (hq : 0 ≤ q) (h : ((q : ℝ)) ^ (3 : ℕ) ≤ x) :
    (q : ℝ) ≤ x ^ ((1 : ℝ)/3) := by
  have hq' : (0 : ℝ) ≤ (q : ℝ) := by exact_mod_cast hq
  have hx : (0 : ℝ) ≤ x := le_trans (by positivity) h
  calc (q : ℝ) = (((q : ℝ) ^ (3 : ℕ))) ^ ((1 : ℝ)/3) := by
        rw [← Real.rpow_natCast (q : ℝ) 3, ← Real.rpow_mul hq']
        norm_num
    _ ≤ x ^ ((1 : ℝ)/3) := Real.rpow_le_rpow (by positivity) h (by norm_num)

theorem rpow13_le {x : ℝ} {q : ℚ} (hx : 0 ≤ x) (h : x ≤ ((q : ℝ)) ^ (3 : ℕ)) :
    x ^ ((1 : ℝ)/3) ≤ (q : ℝ) := by
  have hq' : (0 : ℝ) ≤ (q : ℝ) := by
    by_contra hneg
    push_neg at hneg
    have h3 : ((q : ℝ)) ^ (3 : ℕ) < 0 := Odd.pow_neg (by decide) hneg
    linarith
  calc x ^ ((1 : ℝ)/3) ≤ (((q : ℝ) ^ (3 : ℕ))) ^ ((1 : ℝ)/3) :=
        Real.rpow_le_rpow hx h (by norm_num)
    _ = (q : ℝ) := by
        rw [← Real.rpow_natCast (q : ℝ) 3, ← Real.rpow_mul hq']
        norm_num

/-- Bracket a linearised channel: for a byte `k ≥ 11` the sRGB branch is the
power branch, whose base is the rational `(40k+561)/10761`. -/
theorem linC_bounds (k : ℕ) (lo hi : ℚ) (hk : 11 ≤ k) (hlo : 0 ≤ lo) (hhi : 0 ≤ hi)
    (h1 : lo ^ 5 ≤ ((40 * (k : ℚ) + 561)/10761) ^ 12)
    (h2 : ((40 * (k : ℚ) + 561)/10761) ^ 12 ≤ hi ^ 5) :
    (lo : ℝ) ≤ linC k ∧ linC k ≤ (hi : ℝ) := by
  have hk' : (11 : ℝ) ≤ (k : ℝ) := by exact_mod_cast hk
  have hbranch : ¬ ((k : ℝ) / 255 ≤ 0.04045) := by
    push_neg
    nlinarith
  have hv : (0 : ℚ) ≤ (40 * (k : ℚ) + 561)/10761 := by positivity
  have heq : linC k = (((40 * (k : ℚ) + 561)/10761 : ℚ) : ℝ) ^ (2.4 : ℝ) := by
    rw [linC, srgb_lin, if_neg hbranch]
    congr 1
    push_cast
    ring
  constructor
  · rw [heq]; exact rat_rpow24_le hv hlo h1
  · rw [heq]; exact rat_rpow24_ge hv hhi h2

/-- Bracket `lab_g` on an interval above the 0.008856 threshold, through
cube certificates. -/
theorem lab_g_bounds (cl ch : ℚ) {x : ℝ} {lo hi : ℚ} (hlo : (lo : ℝ) ≤ x) (hhi : x ≤ (hi : ℝ))
    (hth : (1107/125000 : ℚ) < lo) (hcl : 0 ≤ cl)
    (h1 : cl ^ 3 ≤ lo) (h2 : hi ≤ ch ^ 3) :
    (cl : ℝ) ≤ lab_g x ∧ lab_g x ≤ (ch : ℝ) := by
  have hth' : ((1107/125000 : ℚ) : ℝ) < (lo : ℝ) := by exact_mod_cast hth
  have hpos : (0.008856 : ℝ) < x := by
    have : ((1107/125000 : ℚ) : ℝ) = (0.008856 : ℝ) := by norm_num
    linarith
  have hx0 : (0 : ℝ) ≤ x := by linarith
  rw [lab_g, if_pos hpos]
  constructor
  · apply rpow13_ge hcl
    have h1' : ((cl ^ 3 : ℚ) : ℝ) ≤ (lo : ℝ) := by exact_mod_cast h1
    push_cast at h1'
    calc ((cl : ℝ)) ^ (3 : ℕ) ≤ (lo : ℝ) := by exact_mod_cast h1'
      _ ≤ x := hlo
  · apply rpow13_le hx0
    have h2' : ((hi : ℚ) : ℝ) ≤ ((ch ^ 3 : ℚ) : ℝ) := by exact_mod_cast h2
    push_cast at h2'
    calc x ≤ (hi : ℝ) := hhi
      _ ≤ ((ch : ℝ)) ^ (3 : ℕ) := by exact_mod_cast h2'

set_option maxHeartbeats 2000000 in
/-- The two colors `#54A3F2` (hue-210 fallback base) and `#3F7AB5` (its
25%-darkened version) have a CIE76 distance below the threshold:
the squared Lab distance is about 336.3 < 400. -/
theorem sumSq_54A3F2_3F7AB5 : sumSq (84, 163, 242) (63, 122, 181) < 400 := by
  have h84 := linC_bounds 84 0.08865556 0.08865561 (by norm_num) (by norm_num)
    (by norm_num) (by norm_num) (by norm_num)
  have h163 := linC_bounds 163 0.36625257 0.36625262 (by norm_num) (by norm_num)
    (by norm_num) (by norm_num) (by norm_num)
  have h242 := linC_bounds 242 0.88792309 0.88792314 (by norm_num) (by norm_num)
    (by norm_num) (by norm_num) (by norm_num)
  have h63 := linC_bounds 63 0.04970654 0.04970659 (by norm_num) (by norm_num)
    (by norm_num) (by norm_num) (by norm_num)
  have h122 := linC_bounds 122 0.19461780 0.19461786 (by norm_num) (by norm_num)
    (by norm_num) (by norm_num) (by norm_num)
  have h181 := linC_bounds 181 0.46207697 0.46207703 (by norm_num) (by norm_num)
    (by norm_num) (by norm_num) (by norm_num)
  push_cast at h84 h163 h242 h63 h122 h181
  have eXA : labX (84, 163, 242) = linC 84 * 0.4124 + linC 163 * 0.3576 + linC 242 * 0.1805 := rfl
  have eYA : labY (84, 163, 242) = linC 84 * 0.2126 + linC 163 * 0.7152 + linC 242 * 0.0722 := rfl
  have eZA : labZ (84, 163, 242) = linC 84 * 0.0193 + linC 163 * 0.1192 + linC 242 * 0.9505 := rfl
  have eXB : labX (63, 122, 181) = linC 63 * 0.4124 + linC 122 * 0.3576 + linC 181 * 0.1805 := rfl
  have eYB : labY (63, 122, 181) = linC 63 * 0.2126 + linC 122 * 0.7152 + linC 181 * 0.0722 := rfl
  have eZB : labZ (63, 122, 181) = linC 63 * 0.0193 + linC 122 * 0.1192 + linC 181 * 0.9505 := rfl
  have hXA : ((0.34488561 : ℚ) : ℝ) ≤ labX (84, 163, 242) / 0.95047 ∧
      labX (84, 163, 242) / 0.95047 ≤ ((0.34488601 : ℚ) : ℝ) := by
    constructor
    · rw [le_div_iff₀ (by norm_num : (0:ℝ) < 0.95047), eXA]; push_cast; linarith [h84.1, h163.1, h242.1]
    · rw [div_le_iff₀ (by norm_num : (0:ℝ) < 0.95047), eXA]; push_cast; linarith [h84.2, h163.2, h242.2]
  have hYA : ((0.34489988 : ℚ) : ℝ) ≤ labY (84, 163, 242) / 1.00000 ∧
      labY (84, 163, 242) / 1.00000 ≤ ((0.34490028 : ℚ) : ℝ) := by
    constructor
    · rw [le_div_iff₀ (by norm_num : (0:ℝ) < 1.00000), eYA]; push_cast; linarith [h84.1, h163.1, h242.1]
    · rw [div_le_iff₀ (by norm_num : (0:ℝ) < 1.00000), eYA]; push_cast; linarith [h84.2, h163.2, h242.2]
  have hZA : ((0.81678413 : ℚ) : ℝ) ≤ labZ (84, 163, 242) / 1.08883 ∧
      labZ (84, 163, 242) / 1.08883 ≤ ((0.81678453 : ℚ) : ℝ) := by
    constructor
    · rw [le_div_iff₀ (by norm_num : (0:ℝ) < 1.08883), eZA]; push_cast; linarith [h84.1, h163.1, h242.1]
    · rw [div_le_iff₀ (by norm_num : (0:ℝ) < 1.08883), eZA]; push_cast; linarith [h84.2, h163.2, h242.2]
  have hXB : ((0.18254025 : ℚ) : ℝ) ≤ labX (63, 122, 181) / 0.95047 ∧
      labX (63, 122, 181) / 0.95047 ≤ ((0.18254065 : ℚ) : ℝ) := by
    constructor
    · rw [le_div_iff₀ (by norm_num : (0:ℝ) < 0.95047), eXB]; push_cast; linarith [h63.1, h122.1, h181.1]
    · rw [div_le_iff₀ (by norm_num : (0:ℝ) < 0.95047), eXB]; push_cast; linarith [h63.2, h122.2, h181.2]
  have hYB : ((0.18312004 : ℚ) : ℝ) ≤ labY (63, 122, 181) / 1.00000 ∧
      labY (63, 122, 181) / 1.00000 ≤ ((0.18312045 : ℚ) : ℝ) := by
    constructor
    · rw [le_div_iff₀ (by norm_num : (0:ℝ) < 1.00000), eYB]; push_cast; linarith [h63.1, h122.1, h181.1]
    · rw [div_le_iff₀ (by norm_num : (0:ℝ) < 1.00000), eYB]; push_cast; linarith [h63.2, h122.2, h181.2]
  have hZB : ((0.42555931 : ℚ) : ℝ) ≤ labZ (63, 122, 181) / 1.08883 ∧
      labZ (63, 122, 181) / 1.08883 ≤ ((0.42555972 : ℚ) : ℝ) := by
    constructor
    · rw [le_div_iff₀ (by norm_num : (0:ℝ) < 1.08883), eZB]; push_cast; linarith [h63.1, h122.1, h181.1]
    · rw [div_le_iff₀ (by norm_num : (0:ℝ) < 1.08883), eZB]; push_cast; linarith [h63.2, h122.2, h181.2]
  have hfxA : ((0.70127950 : ℚ) : ℝ) ≤ fxC (84, 163, 242) ∧
      fxC (84, 163, 242) ≤ ((0.70128155 : ℚ) : ℝ) :=
    lab_g_bounds 0.70127950 0.70128155 hXA.1 hXA.2 (by norm_num) (by norm_num)
      (by norm_num) (by norm_num)
  have hfyA : ((0.70128917 : ℚ) : ℝ) ≤ fyC (84, 163, 242) ∧
      fyC (84, 163, 242) ≤ ((0.70129122 : ℚ) : ℝ) :=
    lab_g_bounds 0.70128917 0.70129122 hYA.1 hYA.2 (by norm_num) (by norm_num)
      (by norm_num) (by norm_num)
  have hfzA : ((0.93476403 : ℚ) : ℝ) ≤ fzC (84, 163, 242) ∧
      fzC (84, 163, 242) ≤ ((0.93476608 : ℚ) : ℝ) :=
    lab_g_bounds 0.93476403 0.93476608 hZA.1 hZA.2 (by norm_num) (by norm_num)
      (by norm_num) (by norm_num)
  have hfxB : ((0.56726448 : ℚ) : ℝ) ≤ fxC (63, 122, 181) ∧
      fxC (63, 122, 181) ≤ ((0.56726653 : ℚ) : ℝ) :=
    lab_g_bounds 0.56726448 0.56726653 hXB.1 hXB.2 (by norm_num) (by norm_num)
      (by norm_num) (by norm_num)
  have hfyB : ((0.56786444 : ℚ) : ℝ) ≤ fyC (63, 122, 181) ∧
      fyC (63, 122, 181) ≤ ((0.56786649 : ℚ) : ℝ) :=
    lab_g_bounds 0.56786444 0.56786649 hYB.1 hYB.2 (by norm_num) (by norm_num)
      (by norm_num) (by norm_num)
  have hfzB : ((0.75217607 : ℚ) : ℝ) ≤ fzC (63, 122, 181) ∧
      fzC (63, 122, 181) ≤ ((0.75217812 : ℚ) : ℝ) :=
    lab_g_bounds 0.75217607 0.75217812 hZB.1 hZB.2 (by norm_num) (by norm_num)
      (by norm_num) (by norm_num)
  push_cast at hfxA hfyA hfzA hfxB hfyB hfzB
  have eL : labL (84, 163, 242) - labL (63, 122, 181) =
      116 * (fyC (84, 163, 242) - fyC (63, 122, 181)) := by
    simp only [labL]; ring
  have eA : labA (84, 163, 242) - labA (63, 122, 181) =
      500 * ((fxC (84, 163, 242) - fyC (84, 163, 242)) -
        (fxC (63, 122, 181) - fyC (63, 122, 181))) := by
    simp only [labA]; ring
  have eB : labB (84, 163, 242) - labB (63, 122, 181) =
      200 * ((fyC (84, 163, 242) - fzC (84, 163, 242)) -
        (fyC (63, 122, 181) - fzC (63, 122, 181))) := by
    simp only [labB]; ring
  have hdL : 15.47 ≤ labL (84, 163, 242) - labL (63, 122, 181) ∧
      labL (84, 163, 242) - labL (63, 122, 181) ≤ 15.48 := by
    rw [eL]; constructor <;> linarith [hfyA.1, hfyA.2, hfyB.1, hfyB.2]
  have hda : 0.29 ≤ labA (84, 163, 242) - labA (63, 122, 181) ∧
      labA (84, 163, 242) - labA (63, 122, 181) ≤ 0.30 := by
    rw [eA]
    constructor <;>
      linarith [hfxA.1, hfxA.2, hfyA.1, hfyA.2, hfxB.1, hfxB.2, hfyB.1, hfyB.2]
  have hdb : -9.834 ≤ labB (84, 163, 242) - labB (63, 122, 181) ∧
      labB (84, 163, 242) - labB (63, 122, 181) ≤ -9.831 := by
    rw [eB]
    constructor <;>
      linarith [hfyA.1, hfyA.2, hfzA.1, hfzA.2, hfyB.1, hfyB.2, hfzB.1, hfzB.2]
  have hL2 : (labL (84, 163, 242) - labL (63, 122, 181)) ^ 2 ≤ 239.64 := by
    calc (labL (84, 163, 242) - labL (63, 122, 181)) ^ 2 ≤ (15.48 : ℝ) ^ 2 :=
          pow_le_pow_left₀ (by linarith [hdL.1]) hdL.2 2
      _ ≤ 239.64 := by norm_num
  have hA2 : (labA (84, 163, 242) - labA (63, 122, 181)) ^ 2 ≤ 0.09 := by
    calc (labA (84, 163, 242) - labA (63, 122, 181)) ^ 2 ≤ (0.30 : ℝ) ^ 2 :=
          pow_le_pow_left₀ (by linarith [hda.1]) hda.2 2
      _ ≤ 0.09 := by norm_num
  have hB2 : (labB (84, 163, 242) - labB (63, 122, 181)) ^ 2 ≤ 96.71 := by
    calc (labB (84, 163, 242) - labB (63, 122, 181)) ^ 2
        = (-(labB (84, 163, 242) - labB (63, 122, 181))) ^ 2 := by ring
      _ ≤ (9.834 : ℝ) ^ 2 :=
          pow_le_pow_left₀ (by linarith [hdb.2]) (by linarith [hdb.1]) 2
      _ ≤ 96.71 := by norm_num
  have : sumSq (84, 163, 242) (63, 122, 181) =
      (labL (84, 163, 242) - labL (63, 122, 181)) ^ 2 +
        (labA (84, 163, 242) - labA (63, 122, 181)) ^ 2 +
        (labB (84, 163, 242) - labB (63, 122, 181)) ^ 2 := rfl
  rw [this]
  linarith [hL2, hA2, hB2]

set_option maxHeartbeats 2000000 in
/-- The colors `#F25454` (hue-0 fallback base) and `#3FB53F` (darkened
hue-120 fallback base) are far apart: the `a` component alone differs by
more than 116, so the squared Lab distance exceeds 400. -/
theorem sumSq_F25454_3FB53F : 400 ≤ sumSq (242, 84, 84) (63, 181, 63) := by
  have h242 := linC_bounds 242 0.88792309 0.88792314 (by norm_num) (by norm_num)
    (by norm_num) (by norm_num) (by norm_num)
  have h84 := linC_bounds 84 0.08865556 0.08865561 (by norm_num) (by norm_num)
    (by norm_num) (by norm_num) (by norm_num)
  have h63 := linC_bounds 63 0.04970654 0.04970659 (by norm_num) (by norm_num)
    (by norm_num) (by norm_num) (by norm_num)
  have h181 := linC_bounds 181 0.46207697 0.46207703 (by norm_num) (by norm_num)
    (by norm_num) (by norm_num) (by norm_num)
  push_cast at h242 h84 h63 h181
  have eXR : labX (242, 84, 84) = linC 242 * 0.4124 + linC 84 * 0.3576 + linC 84 * 0.1805 := rfl
  have eYR : labY (242, 84, 84) = linC 242 * 0.2126 + linC 84 * 0.7152 + linC 84 * 0.0722 := rfl
  have eXG : labX (63, 181, 63) = linC 63 * 0.4124 + linC 181 * 0.3576 + linC 63 * 0.1805 := rfl
  have eYG : labY (63, 181, 63) = linC 63 * 0.2126 + linC 181 * 0.7152 + linC 63 * 0.0722 := rfl
  have hXR : ((0.43545285 : ℚ) : ℝ) ≤ labX (242, 84, 84) / 0.95047 ∧
      labX (242, 84, 84) / 0.95047 ≤ ((0.43545326 : ℚ) : ℝ) := by
    constructor
    · rw [le_div_iff₀ (by norm_num : (0:ℝ) < 0.95047), eXR]; push_cast; linarith [h242.1, h84.1]
    · rw [div_le_iff₀ (by norm_num : (0:ℝ) < 0.95047), eXR]; push_cast; linarith [h242.2, h84.2]
  have hYR : ((0.25857966 : ℚ) : ℝ) ≤ labY (242, 84, 84) / 1.00000 ∧
      labY (242, 84, 84) / 1.00000 ≤ ((0.25858007 : ℚ) : ℝ) := by
    constructor
    · rw [le_div_iff₀ (by norm_num : (0:ℝ) < 1.00000), eYR]; push_cast; linarith [h242.1, h84.1]
    · rw [div_le_iff₀ (by norm_num : (0:ℝ) < 1.00000), eYR]; push_cast; linarith [h242.2, h84.2]
  have hXG : ((0.20485609 : ℚ) : ℝ) ≤ labX (63, 181, 63) / 0.95047 ∧
      labX (63, 181, 63) / 0.95047 ≤ ((0.20485649 : ℚ) : ℝ) := by
    constructor
    · rw [le_div_iff₀ (by norm_num : (0:ℝ) < 0.95047), eXG]; push_cast; linarith [h63.1, h181.1]
    · rw [div_le_iff₀ (by norm_num : (0:ℝ) < 0.95047), eXG]; push_cast; linarith [h63.2, h181.2]
  have hYG : ((0.34463370 : ℚ) : ℝ) ≤ labY (63, 181, 63) / 1.00000 ∧
      labY (63, 181, 63) / 1.00000 ≤ ((0.34463410 : ℚ) : ℝ) := by
    constructor
    · rw [le_div_iff₀ (by norm_num : (0:ℝ) < 1.00000), eYG]; push_cast; linarith [h63.1, h181.1]
    · rw [div_le_iff₀ (by norm_num : (0:ℝ) < 1.00000), eYG]; push_cast; linarith [h63.2, h181.2]
  have hfxR : ((0.75796042 : ℚ) : ℝ) ≤ fxC (242, 84, 84) ∧
      fxC (242, 84, 84) ≤ ((0.75796247 : ℚ) : ℝ) :=
    lab_g_bounds 0.75796042 0.75796247 hXR.1 hXR.2 (by norm_num) (by norm_num)
      (by norm_num) (by norm_num)
  have hfyR : ((0.63708523 : ℚ) : ℝ) ≤ fyC (242, 84, 84) ∧
      fyC (242, 84, 84) ≤ ((0.63708728 : ℚ) : ℝ) :=
    lab_g_bounds 0.63708523 0.63708728 hYR.1 hYR.2 (by norm_num) (by norm_num)
      (by norm_num) (by norm_num)
  have hfxG : ((0.58949801 : ℚ) : ℝ) ≤ fxC (63, 181, 63) ∧
      fxC (63, 181, 63) ≤ ((0.58950007 : ℚ) : ℝ) :=
    lab_g_bounds 0.58949801 0.58950007 hXG.1 hXG.2 (by norm_num) (by norm_num)
      (by norm_num) (by norm_num)
  have hfyG : ((0.70110871 : ℚ) : ℝ) ≤ fyC (63, 181, 63) ∧
      fyC (63, 181, 63) ≤ ((0.70111076 : ℚ) : ℝ) :=
    lab_g_bounds 0.70110871 0.70111076 hYG.1 hYG.2 (by norm_num) (by norm_num)
      (by norm_num) (by norm_num)
  push_cast at hfxR hfyR hfxG hfyG
  have eA : labA (242, 84, 84) - labA (63, 181, 63) =
      500 * ((fxC (242, 84, 84) - fyC (242, 84, 84)) -
        (fxC (63, 181, 63) - fyC (63, 181, 63))) := by
    simp only [labA]; ring
  have hda : 116 ≤ labA (242, 84, 84) - labA (63, 181, 63) := by
    rw [eA]
    linarith [hfxR.1, hfyR.2, hfxG.2, hfyG.1]
  have hA2 : 13456 ≤ (labA (242, 84, 84) - labA (63, 181, 63)) ^ 2 := by
    calc (13456 : ℝ) = (116 : ℝ) ^ 2 := by norm_num
      _ ≤ (labA (242, 84, 84) - labA (63, 181, 63)) ^ 2 :=
          pow_le_pow_left₀ (by norm_num) hda 2
  have : sumSq (242, 84, 84) (63, 181, 63) =
      (labL (242, 84, 84) - labL (63, 181, 63)) ^ 2 +
        (labA (242, 84, 84) - labA (63, 181, 63)) ^ 2 +
        (labB (242, 84, 84) - labB (63, 181, 63)) ^ 2 := rfl
  rw [this]
  linarith [hA2, sq_nonneg (labL (242, 84, 84) - labL (63, 181, 63)),
    sq_nonneg (labB (242, 84, 84) - labB (63, 181, 63))]

/-! ### From squared Lab distance to the CIE76 value `(...) ** 0.5` -/

theorem sumSq_nonneg (c1 c2 : ℕ × ℕ × ℕ) : 0 ≤ sumSq c1 c2 := by
  have : sumSq c1 c2 = (labL c1 - labL c2) ^ 2 + (labA c1 - labA c2) ^ 2 +
      (labB c1 - labB c2) ^ 2 := rfl
  rw [this]
  positivity

theorem rpow_half_400 : ((400 : ℝ)) ^ ((1 : ℝ)/2) = 20 := by
  rw [show (400 : ℝ) = (20 : ℝ) ^ (2 : ℕ) by norm_num,
    ← Real.rpow_natCast (20 : ℝ) 2, ← Real.rpow_mul (by norm_num : (0:ℝ) ≤ 20)]
  norm_num

theorem delta_lt20_of_sumSq {c1 c2 : ℕ × ℕ × ℕ} (h : sumSq c1 c2 < 400) :
    delta_e76R c1 c2 < 20 := by
  have h0 := sumSq_nonneg c1 c2
  calc delta_e76R c1 c2 = sumSq c1 c2 ^ ((1 : ℝ)/2) := rfl
    _ < (400 : ℝ) ^ ((1 : ℝ)/2) := Real.rpow_lt_rpow h0 h (by norm_num)
    _ = 20 := rpow_half_400

theorem delta_ge20_of_sumSq {c1 c2 : ℕ × ℕ × ℕ} (h : 400 ≤ sumSq c1 c2) :
    20 ≤ delta_e76R c1 c2 := by
  calc (20 : ℝ) = (400 : ℝ) ^ ((1 : ℝ)/2) := rpow_half_400.symm
    _ ≤ sumSq c1 c2 ^ ((1 : ℝ)/2) := Real.rpow_le_rpow (by norm_num) h (by norm_num)
    _ = delta_e76R c1 c2 := rfl

theorem delta_self_eq_zero (c : ℕ × ℕ × ℕ) : delta_e76R c c = 0 := by
  have h : sumSq c c = 0 := by
    have : sumSq c c = (labL c - labL c) ^ 2 + (labA c - labA c) ^ 2 +
        (labB c - labB c) ^ 2 := rfl
    rw [this]
    ring
  calc delta_e76R c c = sumSq c c ^ ((1 : ℝ)/2) := rfl
    _ = (0 : ℝ) ^ ((1 : ℝ)/2) := by rw [h]
    _ = 0 := Real.zero_rpow (by norm_num)

/-! ### Deciding `_similar` on parsed colors -/

theorem similar_of_parsed {s1 s2 : String} {a b : ℕ × ℕ × ℕ}
    (h1 : hex_to_rgb? s1 = some a) (h2 : hex_to_rgb? s2 = some b)
    (h : delta_e76R a b < 20) : similar s1 s2 := by
  simp only [similar, delta_e76?, h1, h2]
  exact h

theorem not_similar_of_parsed {s1 s2 : String} {a b : ℕ × ℕ × ℕ}
    (h1 : hex_to_rgb? s1 = some a) (h2 : hex_to_rgb? s2 = some b)
    (h : 20 ≤ delta_e76R a b) : ¬ similar s1 s2 := by
  simp only [similar, delta_e76?, h1, h2]
  exact not_lt.mpr h

theorem similar_self_of_parsed {s : String} {a : ℕ × ℕ × ℕ}
    (h1 : hex_to_rgb? s = some a) : similar s s := by
  simp only [similar, delta_e76?, h1, delta_self_eq_zero]
  norm_num

/-! ### Concrete color evaluations -/

theorem hue210_eval : hue_base_hex 210 = "#54A3F2" := by
  have h1 : ((210 : ℤ).emod 360 : ℚ) = 210 := by norm_num
  norm_num [hue_base_hex, h1, hsv_to_rgb, pyInt, chan255]
  decide

theorem hue0_eval : hue_base_hex 0 = "#F25454" := by
  have h1 : ((0 : ℤ).emod 360 : ℚ) = 0 := by norm_num
  norm_num [hue_base_hex, h1, hsv_to_rgb, pyInt, chan255]
  decide

theorem hue120_eval : hue_base_hex 120 = "#54F254" := by
  have h1 : ((120 : ℤ).emod 360 : ℚ) = 120 := by norm_num
  norm_num [hue_base_hex, h1, hsv_to_rgb, pyInt, chan255]
  decide

theorem parse54A3F2 : hex_to_rgb? "#54A3F2" = some (84, 163, 242) := by decide

theorem parse3F7AB5 : hex_to_rgb? "#3F7AB5" = some (63, 122, 181) := by decide

theorem parseF25454 : hex_to_rgb? "#F25454" = some (242, 84, 84) := by decide

theorem parse3FB53F : hex_to_rgb? "#3FB53F" = some (63, 181, 63) := by decide

theorem dark54A3F2 : lighten_or_darken? "#54A3F2" (-1/4) = some "#3F7AB5" := by
  rw [lighten_or_darken?, parse54A3F2]
  norm_num [chan255, pyInt]
  decide

theorem darkF25454 : lighten_or_darken? "#F25454" (-1/4) = some "#B53F3F" := by
  rw [lighten_or_darken?, parseF25454]
  norm_num [chan255, pyInt]
  decide

theorem dark54F254 : lighten_or_darken? "#54F254" (-1/4) = some "#3FB53F" := by
  have hp : hex_to_rgb? "#54F254" = some (84, 242, 84) := by decide
  rw [lighten_or_darken?, hp]
  norm_num [chan255, pyInt]
  decide

theorem db_lookup_empty (name abbr : Option String) :
    db_lookup_palette [] name abbr = none := by
  cases abbr <;> cases name <;> simp [db_lookup_palette]

theorem fallback210 (n : String) :
    fallback_palette? hash210 n = some ("#54A3F2", "#3F7AB5") := by
  simp [fallback_palette?, hash210, hue210_eval, dark54A3F2]

theorem fallbackRG_red :
    fallback_palette? hashRG "Red" = some ("#F25454", "#B53F3F") := by
  simp [fallback_palette?, hashRG, hue0_eval, darkF25454]

theorem fallbackRG_grn :
    fallback_palette? hashRG "Grn" = some ("#54F254", "#3FB53F") := by
  have h : hashRG "Grn" = 120 := by simp [hashRG]
  simp [fallback_palette?, h, hue120_eval, dark54F254]

open Classical in
/-- In a process hashing every name to hue 210 and with no database,
`pick_match_colors` takes the double-clash path and returns the base color
against its own darkened version. -/
theorem pick_hash210_eval (hn an : String) :
    pick_match_colors [] hash210 none none hn an =
      some ⟨"#54A3F2", "#3F7AB5"⟩ := by
  have hd : delta_e76R (84, 163, 242) (63, 122, 181) < 20 :=
    delta_lt20_of_sumSq sumSq_54A3F2_3F7AB5
  have hsim1 : similar "#54A3F2" "#3F7AB5" :=
    similar_of_parsed parse54A3F2 parse3F7AB5 hd
  have hsim2 : similar "#54A3F2" "#54A3F2" := similar_self_of_parsed parse54A3F2
  simp only [pick_match_colors, db_lookup_empty, fallback210]
  have hcond : similar "#54A3F2"
      (if similar "#54A3F2" "#3F7AB5" then "#54A3F2" else "#3F7AB5") := by
    rw [if_pos hsim1]; exact hsim2
  rw [if_pos hcond, if_pos hsim1, dark54A3F2]
  rfl

open Classical in
/-- In a process hashing every name to hue 0 and with no database, the
returned home color is the hue-0 base `#F25454`, whatever the similarity
branches decide about the away color. -/
theorem pick_hash0_eval (hn an : String) :
    ∃ ca, pick_match_colors [] hash0 none none hn an =
      some ⟨"#F25454", ca⟩ := by
  have hfbH : fallback_palette? hash0 hn = some ("#F25454", "#B53F3F") := by
    simp [fallback_palette?, hash0, hue0_eval, darkF25454]
  have hfbA : fallback_palette? hash0 an = some ("#F25454", "#B53F3F") := by
    simp [fallback_palette?, hash0, hue0_eval, darkF25454]
  simp only [pick_match_colors, db_lookup_empty, hfbH, hfbA]
  by_cases h1 : similar "#F25454" "#B53F3F"
  · have h2 : similar "#F25454" "#F25454" := similar_self_of_parsed parseF25454
    have hcond : similar "#F25454"
        (if similar "#F25454" "#B53F3F" then "#F25454" else "#B53F3F") := by
      rw [if_pos h1]; exact h2
    rw [if_pos hcond, if_pos h1, darkF25454]
    exact ⟨"#B53F3F", rfl⟩
  · have hcond : ¬ similar "#F25454"
        (if similar "#F25454" "#B53F3F" then "#F25454" else "#B53F3F") := by
      rw [if_neg h1]; exact h1
    rw [if_neg hcond, if_neg h1]
    exact ⟨"#B53F3F", rfl⟩

/-- C1.  Corrected: the claim fails.  In a process where both (distinct)
team names hash to hue 210 and neither team is in the database, the
returned palette is `#54A3F2` against `#3F7AB5`, whose CIE76 distance is
below the threshold 20 (≈ 18.34): the final darkening fix is never
re-checked, so a perceptibly similar pair is returned. -/
theorem claim1_counterexample :
    ("Foo" : String) ≠ "Bar" ∧
    pick_match_colors [] hash210 none none "Foo" "Bar" =
      some ⟨"#54A3F2", "#3F7AB5"⟩ ∧
    delta_e76? "#54A3F2" "#3F7AB5" =
      some (delta_e76R (84, 163, 242) (63, 122, 181)) ∧
    delta_e76R (84, 163, 242) (63, 122, 181) < 20 := by
  refine ⟨by decide, pick_hash210_eval "Foo" "Bar", ?_,
    delta_lt20_of_sumSq sumSq_54A3F2_3F7AB5⟩
  simp only [delta_e76?, parse54A3F2, parse3F7AB5]

open Classical in
/-- C1.  Amended: with no database entries, whenever the initially chosen
pair — the home fallback base against the darkened away fallback base — is
not similar, `pick_match_colors` returns exactly that pair and its CIE76
distance is at least 20; the guarantee is lost only when both similarity
fixes fire (see the counterexample). -/
theorem claim1_amended (strHash : String → ℤ) (hn an : String)
    (bH dH bA dA : String)
    (hH : fallback_palette? strHash hn = some (bH, dH))
    (hA : fallback_palette? strHash an = some (bA, dA))
    (hsim : ¬ similar bH dA) :
    pick_match_colors [] strHash none none hn an = some ⟨bH, dA⟩ ∧
    ∀ d, delta_e76? bH dA = some d → 20 ≤ d := by
  constructor
  · simp only [pick_match_colors, db_lookup_empty, hH, hA]
    have hcond : ¬ similar bH (if similar bH dA then bA else dA) := by
      rw [if_neg hsim]; exact hsim
    rw [if_neg hcond, if_neg hsim]
  · intro d hd
    simp only [similar, hd] at hsim
    exact not_lt.mp hsim

/-- C1.  Witness for the amended theorem: a process hashing the home name
to hue 0 and the away name to hue 120 gives `#F25454` against `#3FB53F`,
which are not similar, and the pair is returned unchanged with ΔE ≥ 20. -/
theorem claim1_witness :
    pick_match_colors [] hashRG none none "Red" "Grn" =
      some ⟨"#F25454", "#3FB53F"⟩ ∧
    ∀ d, delta_e76? "#F25454" "#3FB53F" = some d → 20 ≤ d := by
  have hns : ¬ similar "#F25454" "#3FB53F" :=
    not_similar_of_parsed parseF25454 parse3FB53F
      (delta_ge20_of_sumSq sumSq_F25454_3FB53F)
  exact claim1_amended hashRG "Red" "Grn" "#F25454" "#B53F3F" "#54F254" "#3FB53F"
    fallbackRG_red fallbackRG_grn hns

/-- C8.  Code bug: the fallback hue comes from Python's per-process salted
`hash`, so two processes (modelled by two hash functions) disagree on the
home color for the same arguments — reproducibility across runs fails for
teams absent from the database. -/
theorem claim8_code_bug :
    (∃ ca, pick_match_colors [] hash0 none none "Foo" "Bar" =
      some ⟨"#F25454", ca⟩) ∧
    (∃ ca, pick_match_colors [] hash210 none none "Foo" "Bar" =
      some ⟨"#54A3F2", ca⟩) ∧
    ("#F25454" : String) ≠ "#54A3F2" :=
  ⟨pick_hash0_eval "Foo" "Bar",
   ⟨"#3F7AB5", pick_hash210_eval "Foo" "Bar"⟩, by decide⟩

/-! ### build_minute_matrix: the keyed merge against the grouped sums -/

theorem mem_uniqKeys {α : Type} [DecidableEq α] (l : List α) (x : α) :
    x ∈ uniqKeys l ↔ x ∈ l := by
  induction l with
  | nil => simp [uniqKeys]
  | cons a l ih =>
    simp only [uniqKeys]
    by_cases h : a ∈ l
    · rw [if_pos h, ih]
      constructor
      · exact fun hx => List.mem_cons_of_mem a hx
      · intro hx
        rcases List.mem_cons.mp hx with rfl | hx
        · exact h
        · exact hx
    · rw [if_neg h]
      simp [List.mem_cons, ih]

theorem find?_keyed_map {α β : Type} [DecidableEq α] (l : List α) (f : α → β) (k : α) :
    ((l.map (fun a => (a, f a))).find? (fun e => e.1 = k)) =
      if k ∈ l then some (k, f k) else none := by
  induction l with
  | nil => simp
  | cons a l ih =>
    by_cases h : a = k
    · subst h
      simp [List.find?_cons]
    · rw [List.map_cons, List.find?_cons_of_neg _ (by simp [h]), ih]
      by_cases hk : k ∈ l
      · rw [if_pos hk, if_pos (List.mem_cons_of_mem a hk)]
      · rw [if_neg hk, if_neg (by simp [List.mem_cons, hk, Ne.symm h])]

theorem lookupW_tmpAgg (rows : List MinuteRow) (k : ℤ × String) :
    (lookupW (tmpAgg rows) k).getD 0 = groupWSum rows k := by
  unfold lookupW tmpAgg
  rw [find?_keyed_map]
  by_cases h : k ∈ uniqKeys (rows.filterMap (fun r => r.TeamName.map (fun t => (r.minute, t))))
  · rw [if_pos h]
    rfl
  · rw [if_neg h]
    have hfil : rows.filter (fun r => r.minute = k.1 ∧ r.TeamName = some k.2) = [] := by
      rw [List.filter_eq_nil_iff]
      intro r hr hcontra
      apply h
      rw [mem_uniqKeys]
      apply List.mem_filterMap.mpr
      refine ⟨r, hr, ?_⟩
      simp only [decide_eq_true_eq] at hcontra
      rw [hcontra.2, Option.map_some']
      rw [hcontra.1]
    have : groupWSum rows k = 0 := by
      unfold groupWSum
      rw [hfil]
      rfl
    rw [this]
    rfl

theorem build_minute_matrix_eq (rows : List MinuteRow) (mr : MatchRow) :
    build_minute_matrix rows mr =
      (List.range 41).map (fun (m : ℕ) =>
        ((m : ℤ), wsumAt rows (m : ℤ) mr.HomeName, wsumAt rows (m : ℤ) mr.AwayName)) := by
  unfold build_minute_matrix
  apply List.map_congr_left
  intro m _
  have h1 := lookupW_tmpAgg rows ((m : ℤ), mr.HomeName)
  have h2 := lookupW_tmpAgg rows ((m : ℤ), mr.AwayName)
  rw [h1, h2]
  rfl

/-- C2.  `build_minute_matrix` always returns exactly 41 rows, minutes 0..40
in order, each team value being that team's summed event weight in that
minute (hence 0 where no event exists). -/
theorem claim2_minute_matrix (rows : List MinuteRow) (mr : MatchRow) :
    (build_minute_matrix rows mr).length = 41 ∧
    build_minute_matrix rows mr =
      (List.range 41).map (fun (m : ℕ) =>
        ((m : ℤ), wsumAt rows (m : ℤ) mr.HomeName, wsumAt rows (m : ℤ) mr.AwayName)) := by
  refine ⟨?_, build_minute_matrix_eq rows mr⟩
  rw [build_minute_matrix_eq rows mr, List.length_map, List.length_range]

/-- C9.  Events whose minute lies outside 0..40 contribute to no matrix
cell (the matrix only depends on the in-range events), and the column sums
can be strictly below the total event weight: the single weight-2 event at
minute 45 yields an all-zero matrix. -/
theorem claim9_out_of_range :
    (∀ (rows : List MinuteRow) (mr : MatchRow),
      build_minute_matrix rows mr =
        build_minute_matrix (rows.filter (fun r => 0 ≤ r.minute ∧ r.minute ≤ 40)) mr) ∧
    ((build_minute_matrix minuteRowsEx mrEx).map (fun row => row.2.1 + row.2.2)).sum = 0 ∧
    (minuteRowsEx.map (fun r => r.w)).sum = 2 := by
  refine ⟨?_, ?_, by simp [minuteRowsEx]⟩
  · intro rows mr
    rw [build_minute_matrix_eq, build_minute_matrix_eq]
    apply List.map_congr_left
    intro m hm
    have hm40 : (m : ℤ) ≤ 40 := by
      have := List.mem_range.mp hm
      omega
    have hm0 : (0 : ℤ) ≤ (m : ℤ) := by omega
    have hw : ∀ t, wsumAt rows (m : ℤ) t = wsumAt (rows.filter (fun r => 0 ≤ r.minute ∧ r.minute ≤ 40)) (m : ℤ) t := by
      intro t
      unfold wsumAt
      rw [List.filter_filter]
      have hfil : rows.filter (fun r => decide (r.minute = (m : ℤ) ∧ r.TeamName = some t)) =
          rows.filter (fun r => decide (r.minute = (m : ℤ) ∧ r.TeamName = some t) &&
            decide (0 ≤ r.minute ∧ r.minute ≤ 40)) := by
        apply List.filter_congr
        intro r _
        by_cases hr : r.minute = (m : ℤ) ∧ r.TeamName = some t
        · have hrange : (0 ≤ r.minute ∧ r.minute ≤ 40) := by
            rw [hr.1]
            exact ⟨hm0, hm40⟩
          rw [decide_eq_true hr, decide_eq_true hrange]
          rfl
        · rw [decide_eq_false hr]
          rfl
      rw [hfil]
    rw [hw mr.HomeName, hw mr.AwayName]
  · rw [build_minute_matrix_eq]
    have hzero : ∀ m ∈ List.range 41, ∀ t,
        wsumAt minuteRowsEx (m : ℤ) t = 0 := by
      intro m hm t
      have hm40 : (m : ℤ) ≤ 40 := by
        have := List.mem_range.mp hm
        omega
      unfold wsumAt minuteRowsEx
      rw [List.filter_cons_of_neg]
      · rfl
      · simp only [decide_eq_true_eq, not_and]
        intro h45
        exfalso
        omega
    rw [List.map_map]
    have hmap : ((List.range 41).map
        ((fun (row : ℤ × ℚ × ℚ) => row.2.1 + row.2.2) ∘ (fun (m : ℕ) =>
          ((m : ℤ), wsumAt minuteRowsEx (m : ℤ) mrEx.HomeName,
            wsumAt minuteRowsEx (m : ℤ) mrEx.AwayName)))) =
        (List.range 41).map (fun _ => (0 : ℚ)) := by
      apply List.map_congr_left
      intro m hm
      simp only [Function.comp_apply]
      rw [hzero m hm mrEx.HomeName, hzero m hm mrEx.AwayName]
      norm_num
    rw [hmap, List.map_const', List.sum_replicate, smul_zero]

/-! ### build_attack_df: concrete evaluations and the label/merge claims -/

theorem parse0130 : parse_time_to_seconds (some "01:30") = 90 := by decide

theorem parse0010 : parse_time_to_seconds (some "00:10") = 10 := by decide

theorem npRound90 : npRound ((90 : ℚ) / 60) = 2 := by
  rw [npRound]
  norm_num [Int.fract]

theorem npRound10 : npRound ((10 : ℚ) / 60) = 0 := by
  rw [npRound]
  norm_num [Int.fract]

theorem floor90 : ⌊(90 : ℚ) / 60⌋ = 1 := by norm_num

theorem floor10 : ⌊(10 : ℚ) / 60⌋ = 0 := by norm_num

theorem buildC4_eval : build_attack_df evC4 mrEx none = [rowC4] := by
  have hdf : evC4.filter (fun e => e.Description ∈ WHITELIST_ATTACK) = evC4 := by decide
  simp only [build_attack_df]
  rw [hdf]
  simp only [evC4, List.map_cons, List.map_nil, parse0130, npRound90, floor90]
  decide

theorem buildC5_eval : build_attack_df evC5 mrEx (some squadsEx) = [rowC5] := by
  have hdf : evC5.filter (fun e => e.Description ∈ WHITELIST_ATTACK) = evC5 := by decide
  have hfil : squadsEx.filter
      (fun m => m.PlayerId = (⟨"1", "Goal!", "p2", some "00:10"⟩ : EventRow).PlayerId) = [] := by
    decide
  simp only [build_attack_df]
  rw [if_neg (by decide : ¬ squadsEx = []), hdf]
  simp only [evC5, List.flatMap_cons, List.flatMap_nil, hfil, List.map_cons,
    List.map_nil, List.append_nil, parse0010, npRound10, floor10]
  decide

/-- C4.  Corrected: the claim fails.  For the goal at "01:30" (90 seconds),
the derived minute is `round(90/60) = 2` but the display label is built
from `90 // 60 = 1`, so the label is "01'" and not the zero-padded derived
minute "02'". -/
theorem claim4_counterexample :
    (build_attack_df evC4 mrEx none).map (fun r => r.label) = [mkLabel 1] ∧
    (build_attack_df evC4 mrEx none).map (fun r => mkLabel r.minute) = [mkLabel 2] ∧
    mkLabel 1 ≠ mkLabel 2 := by
  rw [buildC4_eval]
  exact ⟨rfl, rfl, by decide⟩

/-- C4.  Amended: every label equals the zero-padded floor `sec // 60` of
the row's seconds, plus the apostrophe; this differs from the rounded
`minute` column whenever the seconds cross the half minute. -/
theorem claim4_amended (events : List EventRow) (mr : MatchRow)
    (squads : Option (List SquadRow)) :
    (build_attack_df events mr squads).map (fun r => r.label) =
      (build_attack_df events mr squads).map (fun r => mkLabel ⌊r.sec / 60⌋) := by
  unfold build_attack_df
  rw [List.map_map, List.map_map]
  rfl

/-- C5.  Corrected: the claim fails.  With a nonempty squad lookup, a row
whose player id has no entry gets `NaN` (here `none`) as its player name
after the left merge — not the empty string; the empty string is only
assigned when no merge happens at all. -/
theorem claim5_counterexample :
    squadsEx ≠ [] ∧
    (build_attack_df evC5 mrEx (some squadsEx)).map (fun r => r.PlayerName) = [none] ∧
    ((none : Option String) ≠ some "") := by
  refine ⟨by decide, ?_, by decide⟩
  rw [buildC5_eval]
  rfl

/-- C5.  Amended: with a nonempty squad lookup, every output row whose
player id matches no squad entry has `PlayerName = none` (the `NaN` of the
left merge); no error is raised (the function is total). -/
theorem claim5_amended (events : List EventRow) (mr : MatchRow)
    (sq : List SquadRow) (hsq : sq ≠ [])
    (r : AttackRow) (hr : r ∈ build_attack_df events mr (some sq))
    (hmiss : ∀ mrow ∈ sq, mrow.PlayerId ≠ r.PlayerId) :
    r.PlayerName = none := by
  simp only [build_attack_df] at hr
  rw [if_neg hsq] at hr
  rcases List.mem_map.mp hr with ⟨ep, hep, rfl⟩
  rcases List.mem_flatMap.mp hep with ⟨e, _, hepf⟩
  rcases hfil : sq.filter (fun m => m.PlayerId = e.PlayerId) with _ | ⟨m, ms⟩
  · rw [hfil] at hepf
    have : ep = (e, none) := by
      simpa using hepf
    rw [this]
  · rw [hfil] at hepf
    rcases List.mem_map.mp hepf with ⟨m', hm', rfl⟩
    have hm'fil : m' ∈ sq.filter (fun m => m.PlayerId = e.PlayerId) := by
      rw [hfil]
      exact hm'
    have hid : m'.PlayerId = e.PlayerId := by
      have := List.of_mem_filter hm'fil
      simpa using this
    have hmem : m' ∈ sq := List.mem_of_mem_filter hm'fil
    exact absurd hid (hmiss m' hmem)

/-- C5.  Witness for the amended theorem at the concrete input: the built
row of `evC5` (player `p2`, squad containing only `p1`) has no player
name. -/
theorem claim5_witness : rowC5.PlayerName = none := by
  refine claim5_amended evC5 mrEx squadsEx (by decide) rowC5 ?_ ?_
  · rw [buildC5_eval]
    exact List.mem_singleton.mpr rfl
  · intro mrow hm
    simp only [squadsEx, List.mem_singleton] at hm
    subst hm
    decide

/-- C6.  Confirmed: the six documented input/output pairs of
`parse_time_to_seconds`. -/
theorem claim6_parse_time :
    parse_time_to_seconds (some "12:34") = 754 ∧
    parse_time_to_seconds (some "PT12M34S") = 754 ∧
    parse_time_to_seconds (some "PT34S") = 34 ∧
    parse_time_to_seconds (some "7") = 420 ∧
    parse_time_to_seconds none = 0 ∧
    parse_time_to_seconds (some "garbage") = 0 :=
  ⟨by decide, by decide, by decide, by decide, rfl, by decide⟩

/-! ### ewma -/

theorem ewmaGo_length (alpha : ℝ) (prev : ℝ) (zs : List ℝ) :
    (ewmaGo alpha prev zs).length = zs.length := by
  induction zs generalizing prev with
  | nil => rfl
  | cons z zs ih => simp [ewmaGo, ih]

/-- C7.  Confirmed: for positive `dt` and `tau`, `ewma` maps the empty
series to the empty series, preserves length, and starts at `x[0]`. -/
theorem claim7_ewma (dt tau : ℝ) (_hdt : 0 < dt) (_htau : 0 < tau) :
    ewma [] dt tau = [] ∧
    (∀ x : List ℝ, (ewma x dt tau).length = x.length) ∧
    (∀ (x0 : ℝ) (xs : List ℝ), (ewma (x0 :: xs) dt tau).head? = some x0) := by
  refine ⟨rfl, ?_, fun x0 xs => rfl⟩
  intro x
  cases x with
  | nil => rfl
  | cons x0 xs => simp [ewma, ewmaGo_length]

/-- C7.  Witness at `dt = 1`, `tau = 3`, `x = [2, 5]`. -/
theorem claim7_witness :
    (0 : ℝ) < 1 ∧ (0 : ℝ) < 3 ∧ ewma [] 1 3 = [] ∧
    (ewma [(2 : ℝ), 5] 1 3).length = 2 ∧
    (ewma [(2 : ℝ), 5] 1 3).head? = some 2 := by
  obtain ⟨h1, h2, h3⟩ := claim7_ewma 1 3 (by norm_num) (by norm_num)
  exact ⟨by norm_num, by norm_num, h1, (h2 [2, 5]).trans rfl, h3 2 [5]⟩

/-! ### The top-players ranking: descending order and the tie behaviour -/

theorem mem_insertScoreDesc (x b : (String × String) × ℚ)
    (l : List ((String × String) × ℚ)) :
    b ∈ insertScoreDesc x l ↔ b = x ∨ b ∈ l := by
  induction l with
  | nil => simp [insertScoreDesc]
  | cons y ys ih =>
    rw [insertScoreDesc]
    by_cases h : y.2 < x.2
    · rw [if_pos h]
      simp [List.mem_cons, or_comm, or_assoc, or_left_comm]
    · rw [if_neg h]
      simp only [List.mem_cons, ih]
      tauto

theorem insertScoreDesc_pairwise (x : (String × String) × ℚ)
    (l : List ((String × String) × ℚ))
    (hl : l.Pairwise (fun a b => b.2 ≤ a.2)) :
    (insertScoreDesc x l).Pairwise (fun a b => b.2 ≤ a.2) := by
  induction l with
  | nil => simp [insertScoreDesc]
  | cons y ys ih =>
    rcases List.pairwise_cons.mp hl with ⟨hy, hys⟩
    rw [insertScoreDesc]
    by_cases h : y.2 < x.2
    · rw [if_pos h]
      refine List.pairwise_cons.mpr ⟨?_, hl⟩
      intro b hb
      rcases List.mem_cons.mp hb with rfl | hb
      · exact le_of_lt h
      · exact le_trans (hy b hb) (le_of_lt h)
    · rw [if_neg h]
      refine List.pairwise_cons.mpr ⟨?_, ih hys⟩
      intro b hb
      rcases (mem_insertScoreDesc x b ys).mp hb with rfl | hb
      · exact le_of_not_lt h
      · exact hy b hb

theorem foldl_insertScoreDesc_pairwise (l acc : List ((String × String) × ℚ))
    (hacc : acc.Pairwise (fun a b => b.2 ≤ a.2)) :
    (l.foldl (fun acc x => insertScoreDesc x acc) acc).Pairwise
      (fun a b => b.2 ≤ a.2) := by
  induction l generalizing acc with
  | nil => exact hacc
  | cons x xs ih =>
    exact ih (insertScoreDesc x acc) (insertScoreDesc_pairwise x acc hacc)

theorem sortScoreDesc_pairwise (l : List ((String × String) × ℚ)) :
    (sortScoreDesc l).Pairwise (fun a b => b.2 ≤ a.2) :=
  foldl_insertScoreDesc_pairwise l [] (by simp)

theorem topEx_group_eval : groupbyPlayerTeam goalRowsEx =
    [(("Ann", "T"), 3), (("Bob", "T"), 1), (("Zed", "T"), 3)] := by
  have hkeys : sortKeysAsc (uniqKeys (goalRowsEx.map (fun r => (r.PlayerName, r.TeamName)))) =
      [("Ann", "T"), ("Bob", "T"), ("Zed", "T")] := by decide
  have hAnnF : goalRowsEx.filter (fun r => r.PlayerName = "Ann" ∧ r.TeamName = "T") =
      [⟨"Ann", "T", "Goal!"⟩, ⟨"Ann", "T", "Attempt at Goal"⟩] := by decide
  have hBobF : goalRowsEx.filter (fun r => r.PlayerName = "Bob" ∧ r.TeamName = "T") =
      [⟨"Bob", "T", "Attempt at Goal"⟩] := by decide
  have hZedF : goalRowsEx.filter (fun r => r.PlayerName = "Zed" ∧ r.TeamName = "T") =
      [⟨"Zed", "T", "Goal!"⟩, ⟨"Zed", "T", "Attempt at Goal"⟩] := by decide
  have hwG : weightOf "Goal!" = 2 := by decide
  have hwA : weightOf "Attempt at Goal" = 1 := by decide
  unfold groupbyPlayerTeam
  rw [hkeys]
  simp only [List.map_cons, List.map_nil, groupScoreSum, hAnnF, hBobF, hZedF,
    hwG, hwA, List.sum_cons, List.sum_nil]
  norm_num

theorem topEx_eval : top_players_agg goalRowsEx 2 =
    [(("Ann", "T"), 3), (("Zed", "T"), 3)] := by
  unfold top_players_agg
  rw [topEx_group_eval]
  have hsort : sortScoreDesc [(("Ann", "T"), (3 : ℚ)), (("Bob", "T"), 1), (("Zed", "T"), 3)] =
      [(("Ann", "T"), 3), (("Zed", "T"), 3), (("Bob", "T"), 1)] := by
    unfold sortScoreDesc
    simp only [List.foldl_cons, List.foldl_nil]
    norm_num [insertScoreDesc]
  rw [hsort]
  rfl

/-- C3.  Corrected: the claim fails.  With three players summing 3, 3, 1
whose original order is Zed, Ann, Bob and N = 2, the ranking returns the
tied pair as [Ann, Zed] — lexicographic (groupby) order, not the original
relative order [Zed, Ann]. -/
theorem claim3_counterexample :
    top_players_agg goalRowsEx 2 ≠ [(("Zed", "T"), 3), (("Ann", "T"), 3)] ∧
    top_players_agg goalRowsEx 2 = [(("Ann", "T"), 3), (("Zed", "T"), 3)] ∧
    (goalRowsEx.map (fun r => r.PlayerName)).head? = some "Zed" := by
  refine ⟨?_, topEx_eval, by decide⟩
  rw [topEx_eval]
  intro h
  exact absurd (congrArg (fun l => l.head?) h) (by decide)

/-- C3.  Amended: the ranking orders groups by summed weight descending and
truncates to at most N entries, but ties between equal sums come out in the
lexicographic `(PlayerName, TeamName)` order produced by the sorted pandas
groupby — not in the players' original relative order, as the 3/3/1, N = 2
example shows. -/
theorem claim3_amended :
    (∀ (rows : List GoalRow) (n : ℕ),
      (top_players_agg rows n).Pairwise (fun a b => b.2 ≤ a.2) ∧
      (top_players_agg rows n).length ≤ n) ∧
    top_players_agg goalRowsEx 2 = [(("Ann", "T"), 3), (("Zed", "T"), 3)] := by
  refine ⟨?_, topEx_eval⟩
  intro rows n
  constructor
  · exact (sortScoreDesc_pairwise (groupbyPlayerTeam rows)).sublist
      (List.take_sublist n _)
  · unfold top_players_agg
    rw [List.length_take]
    exact min_le_left n _

/-! ### compute_event_stats: the reindexed tables in closed form -/

theorem countTeam_reindex (events : List EventRow) (mr : MatchRow) (t : String) :
    reidxCountOf events mr t = countTeam events mr t := by
  unfold reidxCountOf counts0Of
  rw [find?_keyed_map]
  by_cases h : some t ∈ uniqKeys (events.map (fun e => teamNameOf mr e.TeamId))
  · rw [if_pos h]
    rfl
  · rw [if_neg h]
    have : countTeam events mr t = 0 := by
      unfold countTeam
      rw [List.length_eq_zero, List.filter_eq_nil_iff]
      intro e he hcontra
      apply h
      rw [mem_uniqKeys]
      simp only [decide_eq_true_eq] at hcontra
      exact List.mem_map.mpr ⟨e, he, hcontra⟩
    rw [this]
    rfl

theorem countTeamEvt_of_dist (events : List EventRow) (mr : MatchRow) (t evt : String) :
    ((distRowsOf events).filter
      (fun e => teamNameOf mr e.TeamId = some t ∧ e.Description = evt)).length =
      countTeamEvt events mr t evt := by
  unfold countTeamEvt distRowsOf
  rw [List.filter_filter]
  congr 1
  apply List.filter_congr
  intro e _
  by_cases hW : e.Description ∈ WHITELIST_EVENTS <;>
    by_cases hA : teamNameOf mr e.TeamId = some t ∧ e.Description = evt <;>
      simp [hW, hA]

theorem countTeamEvt_zero_of_no_dist (events : List EventRow) (mr : MatchRow)
    (t evt : String)
    (h : ∀ e ∈ distRowsOf events, ¬ teamNameOf mr e.TeamId = some t) :
    countTeamEvt events mr t evt = 0 := by
  rw [← countTeamEvt_of_dist]
  rw [List.length_eq_zero, List.filter_eq_nil_iff]
  intro e he hcontra
  simp only [decide_eq_true_eq] at hcontra
  exact h e he hcontra.1

theorem reidxDist_eval (events : List EventRow) (mr : MatchRow) (t : String) :
    reidxDistOf events mr t =
      WHITELIST_EVENTS.map (fun evt => (evt, countTeamEvt events mr t evt)) := by
  unfold reidxDistOf
  by_cases hmem : t ∈ uniqKeys ((distRowsOf events).filterMap
      (fun e => teamNameOf mr e.TeamId))
  · rw [if_pos hmem]
    unfold pivotRowOf
    apply List.map_congr_left
    intro evt _
    rw [countTeamEvt_of_dist]
  · rw [if_neg hmem]
    unfold zeroRowStats
    apply List.map_congr_left
    intro evt _
    have hz : countTeamEvt events mr t evt = 0 := by
      apply countTeamEvt_zero_of_no_dist
      intro e he hcontra
      apply hmem
      rw [mem_uniqKeys]
      exact List.mem_filterMap.mpr ⟨e, he, hcontra⟩
    rw [hz]

theorem compute_event_stats_eq (events : List EventRow) (mr : MatchRow) :
    compute_event_stats events mr =
      ([(mr.HomeName, countTeam events mr mr.HomeName),
        (mr.AwayName, countTeam events mr mr.AwayName)],
       [(mr.HomeName, WHITELIST_EVENTS.map
          (fun evt => (evt, countTeamEvt events mr mr.HomeName evt))),
        (mr.AwayName, WHITELIST_EVENTS.map
          (fun evt => (evt, countTeamEvt events mr mr.AwayName evt)))]) := by
  unfold compute_event_stats
  rw [countTeam_reindex, countTeam_reindex]
  by_cases hdist : distRowsOf events = []
  · rw [if_pos hdist]
    have hz : ∀ t evt, countTeamEvt events mr t evt = 0 := by
      intro t evt
      apply countTeamEvt_zero_of_no_dist
      intro e he
      rw [hdist] at he
      exact absurd he (List.not_mem_nil e)
    have hzr : ∀ t : String,
        WHITELIST_EVENTS.map (fun evt => (evt, countTeamEvt events mr t evt)) =
          zeroRowStats := by
      intro t
      unfold zeroRowStats
      apply List.map_congr_left
      intro evt _
      rw [hz]
    rw [hzr mr.HomeName, hzr mr.AwayName]
  · rw [if_neg hdist, reidxDist_eval, reidxDist_eval]

/-- C10.  Confirmed: both returned tables have exactly two rows, the home
row first and the away row second; the counts are exactly the per-team
(and per-whitelisted-description) event counts under the TeamId→TeamName
mapping, so events whose team id maps to neither team are counted in
neither row — dropping them from the input changes nothing. -/
theorem claim10_event_stats (events : List EventRow) (mr : MatchRow) :
    compute_event_stats events mr =
      ([(mr.HomeName, countTeam events mr mr.HomeName),
        (mr.AwayName, countTeam events mr mr.AwayName)],
       [(mr.HomeName, WHITELIST_EVENTS.map
          (fun evt => (evt, countTeamEvt events mr mr.HomeName evt))),
        (mr.AwayName, WHITELIST_EVENTS.map
          (fun evt => (evt, countTeamEvt events mr mr.AwayName evt)))]) ∧
    compute_event_stats events mr =
      compute_event_stats
        (events.filter (fun e => ¬ teamNameOf mr e.TeamId = none)) mr := by
  refine ⟨compute_event_stats_eq events mr, ?_⟩
  rw [compute_event_stats_eq, compute_event_stats_eq]
  have hct : ∀ t, countTeam events mr t =
      countTeam (events.filter (fun e => ¬ teamNameOf mr e.TeamId = none)) mr t := by
    intro t
    unfold countTeam
    rw [List.filter_filter]
    congr 1
    apply List.filter_congr
    intro e _
    by_cases h : teamNameOf mr e.TeamId = some t
    · have : ¬ teamNameOf mr e.TeamId = none := by
        rw [h]
        exact Option.some_ne_none t
      simp [h, this]
    · simp [h]
  have hcte : ∀ t evt, countTeamEvt events mr t evt =
      countTeamEvt (events.filter (fun e => ¬ teamNameOf mr e.TeamId = none)) mr t evt := by
    intro t evt
    unfold countTeamEvt
    rw [List.filter_filter]
    congr 1
    apply List.filter_congr
    intro e _
    by_cases h : e.Description ∈ WHITELIST_EVENTS ∧
        teamNameOf mr e.TeamId = some t ∧ e.Description = evt
    · have : ¬ teamNameOf mr e.TeamId = none := by
        rw [h.2.1]
        exact Option.some_ne_none t
      simp [h, this]
    · simp [h]
  simp only [hct, hcte]

end FutsalWC
